import Mathlib

/-!
Shallow embedding of the sales-and-inventory server core, translated from
src/server/routes.ts.  The route handlers are embedded as pure functions
from an explicit document-store state to a response together with the new
state.  The storage layer (storage.ts) is not among the sources; its
operations are modelled from the specification where marked.
-/

/-- A product document: internal id, externally visible manual id, name,
price and quantity on hand (data model of the spec; fields as used by
src/server/routes.ts). -/
structure Product where
  id : String
  manualId : String
  name : String
  price : Int
  quantity : Int
deriving Repr, DecidableEq

/-- A user document with the fields the login route reads: username,
stored password hash, role, `loginAttempts` (nullable in the store, the
route reads it as `user.loginAttempts || 0`) and nullable `cooldownUntil`
timestamp in milliseconds. -/
structure User where
  id : String
  username : String
  password : String
  role : String
  loginAttempts : Option Nat
  cooldownUntil : Option Int
deriving Repr, DecidableEq

/-- A session document: opaque id, owning user id, creation time. -/
structure Session where
  id : String
  userId : String
  createdAt : Int
deriving Repr, DecidableEq

/-- A persisted sale line item as used by reporting, carrying the day
index of the transaction (reporting model; see `getSalesReport`). -/
structure PersistedSale where
  productId : String
  quantitySold : Int
  totalPrice : Int
  day : Int
deriving Repr, DecidableEq

/-- The document store state: users, sessions, products and the sales
log, plus a counter from which fresh session ids are generated. -/
structure StoreState where
  users : List User
  sessions : List Session
  products : List Product
  sales : List PersistedSale
  nextSessionId : Nat
deriving Repr, DecidableEq

/-- Modelled from the spec: `storage.getUserByUsername` (storage.ts is not
among the sources) — lookup of a user by unique username. -/
def getUserByUsername (st : StoreState) (username : String) : Option User :=
  st.users.find? (fun u => u.username == username)

/-- Modelled from the spec: `storage.getUser` — lookup by internal id. -/
def getUser (st : StoreState) (id : String) : Option User :=
  st.users.find? (fun u => u.id == id)

/-- Modelled from the spec: `storage.getSession` — session lookup by id. -/
def getSession (st : StoreState) (sid : String) : Option Session :=
  st.sessions.find? (fun s => s.id == sid)

/-- Modelled from the spec: `storage.deleteSession` — removes the session
with the given id, if present. -/
def deleteSession (st : StoreState) (sid : String) : StoreState :=
  { st with sessions := st.sessions.filter (fun s => !(s.id == sid)) }

/-- Modelled from the spec: `storage.createSession` — creates and persists
a new session bound to the user, with a fresh opaque id. -/
def createSession (st : StoreState) (userId : String) (now : Int) :
    Session × StoreState :=
  let s : Session :=
    { id := "session-" ++ toString st.nextSessionId
      userId := userId
      createdAt := now }
  (s, { st with sessions := s :: st.sessions, nextSessionId := st.nextSessionId + 1 })

/-- Modelled from the spec: `storage.getProduct` — product lookup by
internal id. -/
def getProduct (st : StoreState) (pid : String) : Option Product :=
  st.products.find? (fun p => p.id == pid)

/-- Modelled from the spec: `storage.getProductByManualId` — product lookup
by the externally visible manual id. -/
def getProductByManualId (st : StoreState) (mid : String) : Option Product :=
  st.products.find? (fun p => p.manualId == mid)

/-- The per-document effect of the conditional stock decrement. -/
def deductApply (pid : String) (qty : Int) (p : Product) : Product :=
  if p.id == pid then
    (if qty ≤ p.quantity then { p with quantity := p.quantity - qty } else p)
  else p

/-- Modelled from the spec: `storage.deductProductStock` — atomic
conditional stock decrement at the storage layer: decrement only if the
current quantity is at least the requested amount. -/
def deductProductStock (st : StoreState) (pid : String) (qty : Int) : StoreState :=
  { st with products := st.products.map (deductApply pid qty) }

/-- The per-document effect of incrementing the login-attempt counter. -/
def incrementApply (username : String) (u : User) : User :=
  if u.username == username then
    { u with loginAttempts := some (u.loginAttempts.getD 0 + 1) }
  else u

/-- Modelled from the spec: `storage.incrementLoginAttempts` — increments
the user's failed-login counter. -/
def incrementLoginAttempts (st : StoreState) (username : String) : StoreState :=
  { st with users := st.users.map (incrementApply username) }

/-- The per-document effect of setting the cooldown timestamp. -/
def cooldownApply (username : String) (t : Int) (u : User) : User :=
  if u.username == username then { u with cooldownUntil := some t } else u

/-- Modelled from the spec: `storage.setCooldown` — stores the lockout
expiry timestamp on the user. -/
def setCooldown (st : StoreState) (username : String) (t : Int) : StoreState :=
  { st with users := st.users.map (cooldownApply username t) }

/-- The per-document effect of resetting the login-attempt state. -/
def resetApply (username : String) (u : User) : User :=
  if u.username == username then
    { u with loginAttempts := some 0, cooldownUntil := none }
  else u

/-- Modelled from the spec: `storage.resetLoginAttempts` — on successful
login, resets `loginAttempts` to 0 and clears `cooldownUntil`. -/
def resetLoginAttempts (st : StoreState) (username : String) : StoreState :=
  { st with users := st.users.map (resetApply username) }

/-- The user object with the password field stripped, as produced by
`const { password, ...safeUser } = user` in routes.ts. -/
structure SafeUser where
  id : String
  username : String
  role : String
  loginAttempts : Option Nat
  cooldownUntil : Option Int
deriving Repr, DecidableEq

/-- Strips the password field from a user document. -/
def toSafeUser (u : User) : SafeUser :=
  { id := u.id
    username := u.username
    role := u.role
    loginAttempts := u.loginAttempts
    cooldownUntil := u.cooldownUntil }

/-- Outcome of POST /api/login: 401 invalid credentials, 429 from an
active cooldown (with remaining seconds), 429 from crossing the failure
threshold (with the new cooldown expiry), or success carrying the safe
user and the new session. -/
inductive LoginResult where
  | invalidCredentials
  | cooldownActive (remainingSeconds : Int)
  | lockedOut (cooldownUntil : Int)
  | success (user : SafeUser) (session : Session)
deriving Repr, DecidableEq

/-- The line-42 condition of routes.ts: `cooldownUntil` is set and in the
future. -/
def cooldownBlocked (u : User) (now : Int) : Bool :=
  match u.cooldownUntil with
  | some t => now < t
  | none => false

/-- The password-comparison branch of the login handler (routes.ts lines
50-77): on mismatch increment the counter and lock out when the
pre-increment counter is at least 2; on match reset the counter and create
a session. -/
def loginCheck (st : StoreState) (now : Int) (compare : String → String → Bool)
    (username password : String) (user : User) : LoginResult × StoreState :=
  if compare password user.password then
    let st1 := resetLoginAttempts st username
    let p := createSession st1 user.id now
    (.success (toSafeUser user) p.1, p.2)
  else
    let st1 := incrementLoginAttempts st username
    if 2 ≤ user.loginAttempts.getD 0 then
      let lockUntil := now + 5 * 60 * 1000
      (.lockedOut lockUntil, setCooldown st1 username lockUntil)
    else
      (.invalidCredentials, st1)

/-- POST /api/login handler (routes.ts lines 36-82).  `compare` models
`bcrypt.compare`; `now` models `Date.now()` in milliseconds. -/
def loginHandler (st : StoreState) (now : Int) (compare : String → String → Bool)
    (username password : String) : LoginResult × StoreState :=
  match getUserByUsername st username with
  | none => (.invalidCredentials, st)
  | some user =>
    if cooldownBlocked user now then
      match user.cooldownUntil with
      | some t => (.cooldownActive ((t - now + 999) / 1000), st)
      | none => (.invalidCredentials, st)
    else
      loginCheck st now compare username password user

/-- Outcome of GET /api/me: 401 without a cookie, 401 on an unknown
session, 404 when the session's user is gone, else the safe user. -/
inductive MeResult where
  | notLoggedIn
  | invalidSession
  | userNotFound
  | ok (user : SafeUser)
deriving Repr, DecidableEq

/-- GET /api/me handler (routes.ts lines 16-33); read-only. -/
def meHandler (st : StoreState) (sessionId : Option String) : MeResult :=
  match sessionId with
  | none => .notLoggedIn
  | some sid =>
    match getSession st sid with
    | none => .invalidSession
    | some session =>
      match getUser st session.userId with
      | none => .userNotFound
      | some user => .ok (toSafeUser user)

/-- Registration payload after the boundary layer validated it and dropped
`confirmPassword` (routes.ts lines 87-88). -/
structure RegisterData where
  username : String
  password : String
  role : String
deriving Repr, DecidableEq

/-- Outcome of POST /api/register: 409 on a duplicate username, else 201
with the safe user. -/
inductive RegisterResult where
  | conflict
  | created (user : SafeUser)
deriving Repr, DecidableEq

/-- Modelled from the spec: `storage.registerUser` — fails with Conflict
if the username exists, otherwise stores the user with the password only
in hashed form (`hash` models the hashing capability). -/
def registerUser (st : StoreState) (hash : String → String) (data : RegisterData) :
    Option (User × StoreState) :=
  match getUserByUsername st data.username with
  | some _ => none
  | none =>
    let u : User :=
      { id := "user-" ++ toString st.users.length
        username := data.username
        password := hash data.password
        role := data.role
        loginAttempts := some 0
        cooldownUntil := none }
    some (u, { st with users := st.users ++ [u] })

/-- POST /api/register handler (routes.ts lines 85-101). -/
def registerHandler (st : StoreState) (hash : String → String)
    (data : RegisterData) : RegisterResult × StoreState :=
  match registerUser st hash data with
  | none => (.conflict, st)
  | some (u, st1) => (.created (toSafeUser u), st1)

/-- Outcome of POST /api/logout: always a 200 success message. -/
inductive LogoutResult where
  | loggedOut
deriving Repr, DecidableEq

/-- POST /api/logout handler (routes.ts lines 104-109): deletes the
session when a cookie is present and always answers 200. -/
def logoutHandler (st : StoreState) (sessionId : Option String) :
    LogoutResult × StoreState :=
  match sessionId with
  | some sid => (.loggedOut, deleteSession st sid)
  | none => (.loggedOut, st)

/-- Product resolution used by the deduct and sales routes: manual id
first, falling back to internal id (routes.ts lines 171-173, 201-203). -/
def findProductAny (st : StoreState) (pid : String) : Option Product :=
  match getProductByManualId st pid with
  | some p => some p
  | none => getProduct st pid

/-- Outcome of POST /api/products/:id/deduct: 404, 400 insufficient stock,
or 200 with the re-fetched product and a message naming the quantity. -/
inductive DeductResult where
  | notFound
  | insufficientStock
  | ok (product : Option Product) (deducted : Int)
deriving Repr, DecidableEq

/-- POST /api/products/:id/deduct handler (routes.ts lines 166-189). -/
def deductHandler (st : StoreState) (productId : String) (quantity : Int) :
    DeductResult × StoreState :=
  match findProductAny st productId with
  | none => (.notFound, st)
  | some product =>
    if product.quantity < quantity then (.insufficientStock, st)
    else
      let st1 := deductProductStock st product.id quantity
      (.ok (getProduct st1 product.id) quantity, st1)

/-- One entry of the sale request body: product id and quantity. -/
structure SaleItem where
  id : String
  quantity : Int
deriving Repr, DecidableEq

/-- One line record of a completed sale response. -/
structure SaleRecord where
  productId : String
  productName : String
  quantitySold : Int
  totalPrice : Int
deriving Repr, DecidableEq

/-- Outcome of POST /api/sales: 400 empty list, 404 missing product,
400 insufficient stock naming the product, or 200 with total and lines. -/
inductive SaleResult where
  | noItems
  | productNotFound (id : String)
  | insufficientStock (name : String)
  | completed (totalAmount : Int) (saleRecords : List SaleRecord)
deriving Repr, DecidableEq

/-- The `for (const item of items)` loop of the sales handler (routes.ts
lines 200-221): resolves each item, returns early on a missing product or
insufficient stock, and otherwise deducts the stock and accumulates the
total and the line records before moving to the next item. -/
def saleLoop (st : StoreState) (items : List SaleItem) (total : Int)
    (recs : List SaleRecord) : SaleResult × StoreState :=
  match items with
  | [] => (.completed total recs.reverse, st)
  | item :: rest =>
    match findProductAny st item.id with
    | none => (.productNotFound item.id, st)
    | some product =>
      if product.quantity < item.quantity then
        (.insufficientStock product.name, st)
      else
        let st1 := deductProductStock st product.id item.quantity
        saleLoop st1 rest (total + product.price * item.quantity)
          ({ productId := product.id
             productName := product.name
             quantitySold := item.quantity
             totalPrice := product.price * item.quantity } :: recs)

/-- POST /api/sales handler (routes.ts lines 191-231). -/
def salesHandler (st : StoreState) (items : List SaleItem) :
    SaleResult × StoreState :=
  if items.isEmpty then (.noItems, st) else saleLoop st items 0 []

/-- Modelled from the spec: `storage.getSalesReport` — read-only
aggregation of the persisted sale line items, grouped by day for the
daily report and by seven-day window for the weekly one. -/
def getSalesReport (st : StoreState) (period : String) : List (Int × Int) :=
  let window := fun (s : PersistedSale) => if period == "weekly" then s.day / 7 else s.day
  ((st.sales.map window).dedup).map (fun k =>
    (k, ((st.sales.filter (fun s => window s == k)).map (fun s => s.totalPrice)).sum))

/-- GET /api/reports/:period handler (routes.ts lines 242-250): any period
other than "weekly" is passed on as "daily"; no state is written. -/
def reportsHandler (st : StoreState) (period : String) :
    List (Int × Int) × StoreState :=
  let p := if period == "weekly" then "weekly" else "daily"
  (getSalesReport st p, st)

/-- Every product in the store has non-negative stock. -/
def stockNonneg (st : StoreState) : Prop :=
  ∀ p ∈ st.products, 0 ≤ p.quantity

instance (st : StoreState) : Decidable (stockNonneg st) := by
  unfold stockNonneg
  infer_instance

/-- Demonstration product P001: quantity 10, price 5 (the spec scenario). -/
def demoProduct1 : Product :=
  { id := "i1", manualId := "P001", name := "Product One", price := 5, quantity := 10 }

/-- Demonstration product P002: quantity 2 in stock. -/
def demoProduct2 : Product :=
  { id := "i2", manualId := "P002", name := "Product Two", price := 8, quantity := 2 }

/-- Demonstration user with no failed attempts and no cooldown. -/
def demoUser : User :=
  { id := "u1", username := "alice", password := "hash-alice", role := "staff"
    loginAttempts := some 0, cooldownUntil := none }

/-- Demonstration user currently under a cooldown ending at t = 10000 ms. -/
def demoLockedUser : User :=
  { id := "u2", username := "bob", password := "hash-bob", role := "staff"
    loginAttempts := some 5, cooldownUntil := some 10000 }

/-- Demonstration user at two recorded failed attempts (the next failure is
the third consecutive one). -/
def demoFailingUser : User :=
  { id := "u3", username := "carol", password := "hash-carol", role := "staff"
    loginAttempts := some 2, cooldownUntil := none }

/-- A small demonstration store used to instantiate the theorems. -/
def demoState : StoreState :=
  { users := [demoUser, demoLockedUser, demoFailingUser]
    sessions := [{ id := "s0", userId := "u1", createdAt := 0 }]
    products := [demoProduct1, demoProduct2]
    sales := []
    nextSessionId := 1 }

/-- The line total a sale item contributes, read off the product the
routes would resolve for it in the given store (0 if unresolved). -/
def lineTotal (st : StoreState) (item : SaleItem) : Int :=
  match findProductAny st item.id with
  | some p => p.price * item.quantity
  | none => 0

/-- The line record a sale item produces, read off the product the routes
would resolve for it in the given store (a placeholder if unresolved). -/
def saleRecordSpec (st : StoreState) (item : SaleItem) : SaleRecord :=
  match findProductAny st item.id with
  | some p =>
    { productId := p.id
      productName := p.name
      quantitySold := item.quantity
      totalPrice := p.price * item.quantity }
  | none =>
    { productId := item.id
      productName := ""
      quantitySold := item.quantity
      totalPrice := 0 }


/-- The quantity of the product a route would resolve for this id. -/
def productQuantity (st : StoreState) (pid : String) : Option Int :=
  (findProductAny st pid).map (fun p => p.quantity)

/-- `find?` commutes with mapping a function that leaves the tested
predicate unchanged. -/
theorem find?_map_invariant {α : Type} (l : List α) (g : α → α) (p : α → Bool)
    (hp : ∀ a, p (g a) = p a) :
    (l.map g).find? p = Option.map g (l.find? p) := by
  rw [List.find?_map]
  have hpg : p ∘ g = p := funext hp
  rw [hpg]

theorem deductApply_id (pid : String) (q : Int) (p : Product) :
    (deductApply pid q p).id = p.id := by
  unfold deductApply
  split
  · split <;> rfl
  · rfl

theorem deductApply_manualId (pid : String) (q : Int) (p : Product) :
    (deductApply pid q p).manualId = p.manualId := by
  unfold deductApply
  split
  · split <;> rfl
  · rfl

theorem deductApply_name (pid : String) (q : Int) (p : Product) :
    (deductApply pid q p).name = p.name := by
  unfold deductApply
  split
  · split <;> rfl
  · rfl

theorem deductApply_price (pid : String) (q : Int) (p : Product) :
    (deductApply pid q p).price = p.price := by
  unfold deductApply
  split
  · split <;> rfl
  · rfl

theorem getProduct_deduct (st : StoreState) (pid : String) (qty : Int) (x : String) :
    getProduct (deductProductStock st pid qty) x
      = Option.map (deductApply pid qty) (getProduct st x) := by
  unfold getProduct deductProductStock
  exact find?_map_invariant _ _ _ (fun a => by rw [deductApply_id])

theorem getProductByManualId_deduct (st : StoreState) (pid : String) (qty : Int)
    (x : String) :
    getProductByManualId (deductProductStock st pid qty) x
      = Option.map (deductApply pid qty) (getProductByManualId st x) := by
  unfold getProductByManualId deductProductStock
  exact find?_map_invariant _ _ _ (fun a => by rw [deductApply_manualId])

theorem findProductAny_deduct (st : StoreState) (pid : String) (qty : Int)
    (x : String) :
    findProductAny (deductProductStock st pid qty) x
      = Option.map (deductApply pid qty) (findProductAny st x) := by
  unfold findProductAny
  rw [getProductByManualId_deduct, getProduct_deduct]
  cases getProductByManualId st x <;> simp

theorem deductApply_quantity_nonneg (pid : String) (q : Int) (p : Product)
    (hp : 0 ≤ p.quantity) : 0 ≤ (deductApply pid q p).quantity := by
  unfold deductApply
  split
  · split
    · simp only []
      omega
    · exact hp
  · exact hp

/-- The conditional storage-layer decrement preserves non-negative stock. -/
theorem deductProductStock_stockNonneg (st : StoreState) (pid : String) (qty : Int)
    (h : stockNonneg st) : stockNonneg (deductProductStock st pid qty) := by
  intro p hp
  unfold deductProductStock at hp
  simp only [List.mem_map] at hp
  obtain ⟨q, hq, rfl⟩ := hp
  exact deductApply_quantity_nonneg _ _ _ (h q hq)

/-- The sales loop preserves non-negative stock, whatever the request. -/
theorem saleLoop_stockNonneg (items : List SaleItem) :
    ∀ (st : StoreState) (total : Int) (recs : List SaleRecord),
      stockNonneg st → stockNonneg (saleLoop st items total recs).2 := by
  induction items with
  | nil => intro st total recs h; exact h
  | cons item rest ih =>
    intro st total recs h
    unfold saleLoop
    cases hf : findProductAny st item.id with
    | none => exact h
    | some product =>
      by_cases hlt : product.quantity < item.quantity
      · simp only [hlt, if_true]
        exact h
      · simp only [hlt, if_false]
        exact ih _ _ _ (deductProductStock_stockNonneg _ _ _ h)

/-- C2: stock can never become negative through the deduct route or the
sales route (given non-negative stock beforehand), and a deduction whose
requested quantity exceeds the resolved product's stock is rejected with
InsufficientStock before any mutation: the state is returned unchanged. -/
theorem stock_never_negative (st : StoreState) (h : stockNonneg st) :
    (∀ pid qty, stockNonneg (deductHandler st pid qty).2) ∧
    (∀ items, stockNonneg (salesHandler st items).2) ∧
    (∀ pid qty p, findProductAny st pid = some p → p.quantity < qty →
      deductHandler st pid qty = (.insufficientStock, st)) := by
  refine ⟨?_, ?_, ?_⟩
  · intro pid qty
    unfold deductHandler
    cases hf : findProductAny st pid with
    | none => exact h
    | some product =>
      dsimp only
      split
      · exact h
      · exact deductProductStock_stockNonneg _ _ _ h
  · intro items
    unfold salesHandler
    split
    · exact h
    · exact saleLoop_stockNonneg _ _ _ _ h
  · intro pid qty p hf hlt
    unfold deductHandler
    rw [hf]
    dsimp only
    rw [if_pos hlt]

/-- Witness for C2 on the demonstration store. -/
theorem stock_never_negative_witness :
    stockNonneg demoState ∧
    stockNonneg (deductHandler demoState "P001" 3).2 ∧
    stockNonneg (salesHandler demoState [{ id := "P001", quantity := 3 }]).2 :=
  ⟨by decide,
   (stock_never_negative demoState (by decide)).1 "P001" 3,
   (stock_never_negative demoState (by decide)).2.1 [{ id := "P001", quantity := 3 }]⟩

/-- C3: when the looked-up user's cooldownUntil is set and strictly in the
future, login answers RateLimited with the remaining seconds
(`Math.ceil` of the millisecond difference over 1000), for every supplied
password, and the store is unchanged — no session is created. -/
theorem cooldown_blocks_login (st : StoreState) (now t : Int)
    (compare : String → String → Bool) (username password : String) (user : User)
    (hu : getUserByUsername st username = some user)
    (hc : user.cooldownUntil = some t) (ht : now < t) :
    loginHandler st now compare username password =
      (.cooldownActive ((t - now + 999) / 1000), st) := by
  have hb : cooldownBlocked user now = true := by
    unfold cooldownBlocked
    rw [hc]
    exact decide_eq_true ht
  unfold loginHandler
  rw [hu]
  dsimp only
  rw [if_pos hb, hc]

/-- Witness for C3: bob is locked until t = 10000; at now = 0 a login with
an arbitrary password is rate-limited for 10 more seconds. -/
theorem cooldown_blocks_login_witness :
    loginHandler demoState 0 (fun a b => a == b) "bob" "hash-bob" =
      (.cooldownActive ((10000 - 0 + 999) / 1000), demoState) :=
  cooldown_blocks_login demoState 0 10000 (fun a b => a == b) "bob" "hash-bob"
    demoLockedUser (by decide) (by decide) (by decide)

/-- C8: logout always answers success, with or without a session cookie;
after a logout the session can no longer be looked up; and a second logout
with the same session id again answers success and leaves the store
exactly as the first one did. -/
theorem logout_idempotent (st : StoreState) (sid : String) :
    (logoutHandler st (some sid)).1 = .loggedOut ∧
    (logoutHandler st none).1 = .loggedOut ∧
    getSession (logoutHandler st (some sid)).2 sid = none ∧
    logoutHandler (logoutHandler st (some sid)).2 (some sid) =
      (.loggedOut, (logoutHandler st (some sid)).2) := by
  refine ⟨rfl, rfl, ?_, ?_⟩
  · unfold logoutHandler deleteSession getSession
    dsimp only
    rw [List.find?_eq_none]
    intro s hs
    rw [List.mem_filter] at hs
    simpa using hs.2
  · unfold logoutHandler deleteSession
    dsimp only
    rw [List.filter_filter]
    simp [Bool.and_self]

/-- C9: every period other than "weekly" produces exactly the daily
report, and the reports route writes nothing: the store it returns is the
one it was given, for every period. -/
theorem reports_default_daily (st : StoreState) (period : String)
    (h : period ≠ "weekly") :
    reportsHandler st period = reportsHandler st "daily" ∧
    (∀ q : String, (reportsHandler st q).2 = st) := by
  constructor
  · unfold reportsHandler
    have hb : (period == "weekly") = false := by
      simpa using h
    rw [hb]
    rfl
  · intro q
    rfl

/-- Witness for C9: the unknown period "monthly" yields the daily report. -/
theorem reports_default_daily_witness :
    reportsHandler demoState "monthly" = reportsHandler demoState "daily" ∧
    (∀ q : String, (reportsHandler demoState q).2 = demoState) :=
  reports_default_daily demoState "monthly" (by decide)

theorem incrementApply_username (username : String) (u : User) :
    (incrementApply username u).username = u.username := by
  unfold incrementApply
  split <;> rfl

theorem cooldownApply_username (username : String) (t : Int) (u : User) :
    (cooldownApply username t u).username = u.username := by
  unfold cooldownApply
  split <;> rfl

theorem resetApply_username (username : String) (u : User) :
    (resetApply username u).username = u.username := by
  unfold resetApply
  split <;> rfl

theorem getUserByUsername_increment (st : StoreState) (username x : String) :
    getUserByUsername (incrementLoginAttempts st username) x
      = Option.map (incrementApply username) (getUserByUsername st x) := by
  unfold getUserByUsername incrementLoginAttempts
  exact find?_map_invariant _ _ _ (fun a => by rw [incrementApply_username])

theorem getUserByUsername_setCooldown (st : StoreState) (username : String)
    (t : Int) (x : String) :
    getUserByUsername (setCooldown st username t) x
      = Option.map (cooldownApply username t) (getUserByUsername st x) := by
  unfold getUserByUsername setCooldown
  exact find?_map_invariant _ _ _ (fun a => by rw [cooldownApply_username])

theorem getUserByUsername_reset (st : StoreState) (username x : String) :
    getUserByUsername (resetLoginAttempts st username) x
      = Option.map (resetApply username) (getUserByUsername st x) := by
  unfold getUserByUsername resetLoginAttempts
  exact find?_map_invariant _ _ _ (fun a => by rw [resetApply_username])

/-- A found user satisfies the username predicate. -/
theorem getUserByUsername_matches (st : StoreState) (username : String)
    (user : User) (h : getUserByUsername st username = some user) :
    user.username = username := by
  unfold getUserByUsername at h
  have := List.find?_some h
  simpa using this

/-- In a list whose keys are nodup, `find?` by the key of a member returns
exactly that member. -/
theorem find?_key_nodup {α : Type} (key : α → String) (a : α) :
    ∀ l : List α, a ∈ l → (l.map key).Nodup →
      l.find? (fun b => key b == key a) = some a := by
  intro l
  induction l with
  | nil => intro ha; cases ha
  | cons x xs ih =>
    intro ha hn
    rw [List.map_cons, List.nodup_cons] at hn
    rw [List.find?_cons]
    cases hx : (key x == key a) with
    | true =>
      cases ha with
      | head => rfl
      | tail _ hmem =>
        exfalso
        apply hn.1
        rw [List.mem_map]
        exact ⟨a, hmem, (eq_of_beq hx).symm⟩
    | false =>
      cases ha with
      | head => simp at hx
      | tail _ hmem => exact ih hmem hn.2

/-- The product a sale or deduct route resolves is in the store. -/
theorem findProductAny_mem (st : StoreState) (pid : String) (p : Product)
    (hf : findProductAny st pid = some p) : p ∈ st.products := by
  unfold findProductAny at hf
  cases hm : getProductByManualId st pid with
  | some q =>
    rw [hm] at hf
    cases hf
    unfold getProductByManualId at hm
    exact List.mem_of_find?_eq_some hm
  | none =>
    rw [hm] at hf
    unfold getProduct at hf
    exact List.mem_of_find?_eq_some hf

/-- With nodup internal ids, looking a resolved product up again by its
internal id returns it. -/
theorem getProduct_self (st : StoreState) (p : Product)
    (hmem : p ∈ st.products)
    (hids : (st.products.map (fun q => q.id)).Nodup) :
    getProduct st p.id = some p := by
  unfold getProduct
  exact find?_key_nodup (fun q => q.id) p st.products hmem hids

/-- Successful login, fully characterised: the handler resets the user's
attempt state, creates a session on top of that store and answers with
the safe user and the session. -/
theorem loginHandler_success_eq (st : StoreState) (now : Int)
    (compare : String → String → Bool) (username password : String) (user : User)
    (hu : getUserByUsername st username = some user)
    (hcool : cooldownBlocked user now = false)
    (hpw : compare password user.password = true) :
    loginHandler st now compare username password =
      (.success (toSafeUser user)
         (createSession (resetLoginAttempts st username) user.id now).1,
       (createSession (resetLoginAttempts st username) user.id now).2) := by
  unfold loginHandler
  rw [hu]
  dsimp only
  have hcool' : ¬ (cooldownBlocked user now = true) := by
    rw [hcool]
    exact Bool.false_ne_true
  rw [if_neg hcool']
  unfold loginCheck
  rw [if_pos hpw]

/-- Failed login with no active cooldown, fully characterised: increment
first, then lock out for a fixed 5 minutes exactly when the pre-increment
counter is at least 2. -/
theorem loginHandler_failure_eq (st : StoreState) (now : Int)
    (compare : String → String → Bool) (username password : String) (user : User)
    (hu : getUserByUsername st username = some user)
    (hcool : cooldownBlocked user now = false)
    (hpw : compare password user.password = false) :
    loginHandler st now compare username password =
      (if 2 ≤ user.loginAttempts.getD 0 then
        (.lockedOut (now + 5 * 60 * 1000),
         setCooldown (incrementLoginAttempts st username) username
           (now + 5 * 60 * 1000))
      else
        (.invalidCredentials, incrementLoginAttempts st username)) := by
  unfold loginHandler
  rw [hu]
  dsimp only
  have hcool' : ¬ (cooldownBlocked user now = true) := by
    rw [hcool]
    exact Bool.false_ne_true
  rw [if_neg hcool']
  unfold loginCheck
  have hpw' : ¬ (compare password user.password = true) := by
    rw [hpw]
    exact Bool.false_ne_true
  rw [if_neg hpw']

/-- C5 counterexample: the deduct route does not require the quantity to
be a positive integer — a request for -3 units of P001 (stock 10) is
accepted and even raises the stock to 13 instead of failing. -/
theorem deduct_accepts_nonpositive :
    (deductHandler demoState "P001" (-3)).1 =
      .ok (some { demoProduct1 with quantity := 13 }) (-3) ∧
    productQuantity (deductHandler demoState "P001" (-3)).2 "P001" = some 13 := by
  constructor
  · rfl
  · rfl

/-- C5 amended: with no validation of the quantity, the deduct route fails
with NotFound when no product resolves for the id, with InsufficientStock
(state untouched) when the resolved product's stock is below the requested
quantity, and otherwise decrements that product's stock by the requested
quantity and returns the updated product (internal ids assumed unique, as
document-store keys are). -/
theorem deduct_behavior (st : StoreState) (pid : String) (qty : Int)
    (hids : (st.products.map (fun q => q.id)).Nodup) :
    (findProductAny st pid = none → deductHandler st pid qty = (.notFound, st)) ∧
    (∀ p, findProductAny st pid = some p → p.quantity < qty →
      deductHandler st pid qty = (.insufficientStock, st)) ∧
    (∀ p, findProductAny st pid = some p → ¬ p.quantity < qty →
      deductHandler st pid qty =
        (.ok (some { p with quantity := p.quantity - qty }) qty,
         deductProductStock st p.id qty)) := by
  refine ⟨?_, ?_, ?_⟩
  · intro hf
    unfold deductHandler
    rw [hf]
  · intro p hf hlt
    unfold deductHandler
    rw [hf]
    dsimp only
    rw [if_pos hlt]
  · intro p hf hlt
    unfold deductHandler
    rw [hf]
    dsimp only
    rw [if_neg hlt]
    have hmem : p ∈ st.products := findProductAny_mem st pid p hf
    have hself : getProduct st p.id = some p := getProduct_self st p hmem hids
    rw [getProduct_deduct, hself]
    have happ : deductApply p.id qty p = { p with quantity := p.quantity - qty } := by
      unfold deductApply
      rw [if_pos (by simp)]
      rw [if_pos (Int.not_lt.mp hlt)]
    simp only [Option.map_some']
    rw [happ]

/-- Witness for the amended C5: deducting 3 of P001 (stock 10) returns the
product at stock 7. -/
theorem deduct_behavior_witness :
    deductHandler demoState "P001" 3 =
      (.ok (some { demoProduct1 with quantity := 10 - 3 }) 3,
       deductProductStock demoState demoProduct1.id 3) :=
  (deduct_behavior demoState "P001" 3 (by decide)).2.2 demoProduct1
    (by decide) (by decide)

/-- C4 counterexample: carol's third consecutive failed attempt (two
already recorded) locks her account for 5 minutes (300000 ms from now),
not for the 60 seconds the escalating schedule of the claim prescribes
after 3 attempts. -/
theorem third_failure_locks_five_minutes :
    (loginHandler demoState 0 (fun a b => a == b) "carol" "wrong-password").1 =
      .lockedOut 300000 ∧ (300000 : Int) ≠ 60 * 1000 := by
  constructor
  · rfl
  · decide

/-- C4 amended: on a wrong password with no active cooldown the counter is
incremented; as long as fewer than 2 failures were recorded the answer is
InvalidCredentials, and from the third consecutive failure on (2 or more
recorded) the account is locked for a fixed 5 minutes — the same duration
at every further failure, with no escalation. -/
theorem failed_login_lockout (st : StoreState) (now : Int)
    (compare : String → String → Bool) (username password : String) (user : User)
    (hu : getUserByUsername st username = some user)
    (hcool : cooldownBlocked user now = false)
    (hpw : compare password user.password = false) :
    (user.loginAttempts.getD 0 < 2 →
      loginHandler st now compare username password =
        (.invalidCredentials, incrementLoginAttempts st username) ∧
      getUserByUsername (incrementLoginAttempts st username) username =
        some { user with loginAttempts := some (user.loginAttempts.getD 0 + 1) }) ∧
    (2 ≤ user.loginAttempts.getD 0 →
      loginHandler st now compare username password =
        (.lockedOut (now + 5 * 60 * 1000),
         setCooldown (incrementLoginAttempts st username) username
           (now + 5 * 60 * 1000)) ∧
      getUserByUsername
          (setCooldown (incrementLoginAttempts st username) username
            (now + 5 * 60 * 1000)) username =
        some { user with loginAttempts := some (user.loginAttempts.getD 0 + 1),
                         cooldownUntil := some (now + 5 * 60 * 1000) }) := by
  have hup : (user.username == username) = true := by
    rw [getUserByUsername_matches st username user hu]
    simp
  have hinc : incrementApply username user =
      { user with loginAttempts := some (user.loginAttempts.getD 0 + 1) } := by
    unfold incrementApply
    rw [if_pos hup]
  constructor
  · intro hlt
    constructor
    · rw [loginHandler_failure_eq st now compare username password user hu hcool hpw]
      rw [if_neg (by omega)]
    · rw [getUserByUsername_increment, hu]
      simp only [Option.map_some']
      rw [hinc]
  · intro hge
    constructor
    · rw [loginHandler_failure_eq st now compare username password user hu hcool hpw]
      rw [if_pos hge]
    · rw [getUserByUsername_setCooldown, getUserByUsername_increment, hu]
      simp only [Option.map_some']
      rw [hinc]
      unfold cooldownApply
      rw [if_pos (by simpa using hup)]

/-- Witness for the amended C4: alice (0 recorded failures) gets a plain
401 on a wrong password, with her counter moved to 1. -/
theorem failed_login_lockout_witness :
    loginHandler demoState 0 (fun a b => a == b) "alice" "wrong-password" =
      (.invalidCredentials, incrementLoginAttempts demoState "alice") ∧
    getUserByUsername (incrementLoginAttempts demoState "alice") "alice" =
      some { demoUser with loginAttempts := some 1 } :=
  (failed_login_lockout demoState 0 (fun a b => a == b) "alice" "wrong-password"
      demoUser (by decide) (by decide) (by decide)).1 (by decide)

/-- C1: evaluating the sales route on the spec's own failure scenario —
P001 in stock 10, P002 in stock 2, request [{P001, 3}, {P002, 999}] — the
sale fails with InsufficientStock for P002, yet P001's stock has already
been deducted from 10 to 7: the partial deduction is observable. -/
theorem sale_partial_deduction_observable :
    (salesHandler demoState
        [{ id := "P001", quantity := 3 }, { id := "P002", quantity := 999 }]).1 =
      .insufficientStock "Product Two" ∧
    productQuantity demoState "P001" = some 10 ∧
    productQuantity (salesHandler demoState
        [{ id := "P001", quantity := 3 }, { id := "P002", quantity := 999 }]).2
        "P001" = some 7 := by
  refine ⟨rfl, rfl, rfl⟩

theorem lineTotal_deduct (st : StoreState) (pid : String) (qty : Int)
    (item : SaleItem) :
    lineTotal (deductProductStock st pid qty) item = lineTotal st item := by
  unfold lineTotal
  rw [findProductAny_deduct]
  cases findProductAny st item.id with
  | none => rfl
  | some p =>
    simp only [Option.map_some']
    rw [deductApply_price]

theorem saleRecordSpec_deduct (st : StoreState) (pid : String) (qty : Int)
    (item : SaleItem) :
    saleRecordSpec (deductProductStock st pid qty) item = saleRecordSpec st item := by
  unfold saleRecordSpec
  rw [findProductAny_deduct]
  cases findProductAny st item.id with
  | none => rfl
  | some p =>
    simp only [Option.map_some']
    rw [deductApply_price, deductApply_name, deductApply_id]

/-- A completed run of the sales loop accumulates exactly the line totals
and line records determined by the store it started from. -/
theorem saleLoop_completed (items : List SaleItem) :
    ∀ (st : StoreState) (total : Int) (recs : List SaleRecord) (T : Int)
      (R : List SaleRecord) (st' : StoreState),
      saleLoop st items total recs = (.completed T R, st') →
      T = total + (items.map (lineTotal st)).sum ∧
      R = recs.reverse ++ items.map (saleRecordSpec st) := by
  induction items with
  | nil =>
    intro st total recs T R st' h
    unfold saleLoop at h
    rw [Prod.mk.injEq] at h
    have h1 := h.1
    rw [SaleResult.completed.injEq] at h1
    constructor
    · rw [← h1.1]
      simp
    · rw [← h1.2]
      simp
  | cons item rest ih =>
    intro st total recs T R st' h
    unfold saleLoop at h
    cases hf : findProductAny st item.id with
    | none =>
      rw [hf] at h
      simp at h
    | some product =>
      rw [hf] at h
      dsimp only at h
      by_cases hlt : product.quantity < item.quantity
      · rw [if_pos hlt] at h
        simp at h
      · rw [if_neg hlt] at h
        have hrec := ih _ _ _ _ _ _ h
        have hline : lineTotal (deductProductStock st product.id item.quantity)
            = lineTotal st :=
          funext (fun it => lineTotal_deduct st product.id item.quantity it)
        have hrecf : saleRecordSpec (deductProductStock st product.id item.quantity)
            = saleRecordSpec st :=
          funext (fun it => saleRecordSpec_deduct st product.id item.quantity it)
        rw [hline, hrecf] at hrec
        have hl : lineTotal st item = product.price * item.quantity := by
          unfold lineTotal
          rw [hf]
        have hr : saleRecordSpec st item =
            { productId := product.id
              productName := product.name
              quantitySold := item.quantity
              totalPrice := product.price * item.quantity } := by
          unfold saleRecordSpec
          rw [hf]
        constructor
        · rw [hrec.1, List.map_cons, List.sum_cons, hl]
          omega
        · rw [hrec.2, List.map_cons, hr]
          simp

/-- C6: whenever the sales route completes, the reported totalAmount is
the sum over the request items of the resolved product's price times the
requested quantity, and the line records are exactly, in request order,
the resolved product's id and name with the quantity sold and the line
total price times quantity. -/
theorem sale_total_correct (st : StoreState) (items : List SaleItem)
    (T : Int) (R : List SaleRecord) (st' : StoreState)
    (h : salesHandler st items = (.completed T R, st')) :
    T = (items.map (lineTotal st)).sum ∧
    R = items.map (saleRecordSpec st) := by
  unfold salesHandler at h
  by_cases he : items.isEmpty
  · rw [if_pos he] at h
    simp at h
  · rw [if_neg he] at h
    have := saleLoop_completed items st 0 [] T R st' h
    simpa using this

/-- Witness for C6 on the spec scenario: selling 3 of P001 (price 5,
stock 10) totals 15, records the line (i1, Product One, 3, 15), and
leaves P001 at stock 7. -/
theorem sale_total_correct_witness :
    ((15 : Int) = (([{ id := "P001", quantity := 3 }] : List SaleItem).map
        (lineTotal demoState)).sum ∧
      ([{ productId := "i1", productName := "Product One", quantitySold := 3,
          totalPrice := 15 }] : List SaleRecord) =
        ([{ id := "P001", quantity := 3 }] : List SaleItem).map
          (saleRecordSpec demoState)) ∧
    productQuantity
        (salesHandler demoState [{ id := "P001", quantity := 3 }]).2 "P001" =
      some 7 :=
  ⟨sale_total_correct demoState [{ id := "P001", quantity := 3 }] 15
      [{ productId := "i1", productName := "Product One", quantitySold := 3,
         totalPrice := 15 }]
      (salesHandler demoState [{ id := "P001", quantity := 3 }]).2 rfl,
   rfl⟩

/-- C7: on a correct password with no active cooldown, login resets the
user's loginAttempts to 0 and clears cooldownUntil, creates and persists a
session bound to the user, and answers with the safe user together with
that session. -/
theorem login_success_resets_and_creates_session (st : StoreState) (now : Int)
    (compare : String → String → Bool) (username password : String) (user : User)
    (hu : getUserByUsername st username = some user)
    (hcool : cooldownBlocked user now = false)
    (hpw : compare password user.password = true) :
    loginHandler st now compare username password =
      (.success (toSafeUser user)
         (createSession (resetLoginAttempts st username) user.id now).1,
       (createSession (resetLoginAttempts st username) user.id now).2) ∧
    getUserByUsername (loginHandler st now compare username password).2 username =
      some { user with loginAttempts := some 0, cooldownUntil := none } ∧
    (createSession (resetLoginAttempts st username) user.id now).1.userId = user.id ∧
    (createSession (resetLoginAttempts st username) user.id now).1 ∈
      (loginHandler st now compare username password).2.sessions := by
  have hup : (user.username == username) = true := by
    rw [getUserByUsername_matches st username user hu]
    simp
  have heq := loginHandler_success_eq st now compare username password user hu hcool hpw
  refine ⟨heq, ?_, rfl, ?_⟩
  · rw [heq]
    have hsame : getUserByUsername
        (createSession (resetLoginAttempts st username) user.id now).2 username =
        getUserByUsername (resetLoginAttempts st username) username := rfl
    rw [hsame, getUserByUsername_reset, hu, Option.map_some']
    unfold resetApply
    rw [if_pos hup]
  · rw [heq]
    exact List.mem_cons_self _ _

/-- Witness for C7: alice logs in with the matching password. -/
theorem login_success_witness :
    loginHandler demoState 0 (fun a b => a == b) "alice" "hash-alice" =
      (.success (toSafeUser demoUser)
         (createSession (resetLoginAttempts demoState "alice") demoUser.id 0).1,
       (createSession (resetLoginAttempts demoState "alice") demoUser.id 0).2) :=
  (login_success_resets_and_creates_session demoState 0 (fun a b => a == b)
      "alice" "hash-alice" demoUser (by decide) (by decide) (by decide)).1

/-- C10: the safe-user projection carries no trace of the stored password
hash (it is invariant under changing it), and every user object returned
by /api/me, a successful login and a successful registration is exactly
that projection of a stored user. -/
theorem responses_omit_password :
    (∀ (u : User) (pw : String), toSafeUser { u with password := pw } = toSafeUser u) ∧
    (∀ (st : StoreState) (sid : String) (s : Session) (u : User),
      getSession st sid = some s → getUser st s.userId = some u →
      meHandler st (some sid) = .ok (toSafeUser u)) ∧
    (∀ (st : StoreState) (now : Int) (compare : String → String → Bool)
      (username password : String) (user : User),
      getUserByUsername st username = some user →
      cooldownBlocked user now = false →
      compare password user.password = true →
      (loginHandler st now compare username password).1 =
        .success (toSafeUser user)
          (createSession (resetLoginAttempts st username) user.id now).1) ∧
    (∀ (st : StoreState) (hash : String → String) (data : RegisterData)
      (su : SafeUser),
      (registerHandler st hash data).1 = .created su →
      ∃ u ∈ (registerHandler st hash data).2.users, su = toSafeUser u) := by
  refine ⟨fun u pw => rfl, ?_, ?_, ?_⟩
  · intro st sid s u hs hu
    unfold meHandler
    dsimp only
    rw [hs]
    dsimp only
    rw [hu]
  · intro st now compare username password user hu hcool hpw
    rw [loginHandler_success_eq st now compare username password user hu hcool hpw]
  · intro st hash data su h
    unfold registerHandler registerUser at h ⊢
    cases hx : getUserByUsername st data.username with
    | some w =>
      rw [hx] at h
      simp at h
    | none =>
      rw [hx] at h
      dsimp only at h ⊢
      rw [RegisterResult.created.injEq] at h
      refine ⟨_, ?_, h.symm⟩
      exact List.mem_append_right _ (List.mem_singleton.mpr rfl)

/-- Witness for C10: /api/me with alice's session answers her safe user. -/
theorem responses_omit_password_witness :
    meHandler demoState (some "s0") = .ok (toSafeUser demoUser) :=
  responses_omit_password.2.1 demoState "s0"
    { id := "s0", userId := "u1", createdAt := 0 } demoUser (by decide) (by decide)
